import Mathlib

/-
Shallow embedding of the toko-warga storefront backend, centred on the
checkout transaction POST /api/orders. The repository holds two variants of
the handler: the one in src/index.js (total accumulated from
product.price.price) and a second one concatenated after drizzle.config.js
(total accumulated from product.price, with a Produk fallback in the error
message). Both are embedded below, as placeOrder and placeOrderV2.

Numeric columns (numeric(12,2)) are modelled as rationals; JavaScript
number values that can be NaN are modelled as Option Rat with none = NaN,
since Postgres numeric accepts NaN as a storable value and NaN propagates
through JavaScript arithmetic. Binary floating point rounding is outside
the scope of the claims settled here; all concrete evaluations use values
on which double arithmetic is exact.
-/

namespace TokoWarga

/-- Row of the users table (src/db/schema.js). -/
structure User where
  id : Nat
  username : String
  password : String
  role : String
deriving DecidableEq, Repr

/-- Row of the categories table (src/db/schema.js). -/
structure Category where
  id : Nat
  name : String
deriving DecidableEq, Repr

/-- Row of the products table (src/db/schema.js): price is numeric(12,2),
stock an integer column. The timestamp-free columns relevant to checkout are
all kept. -/
structure Product where
  id : Nat
  name : String
  description : Option String
  price : ℚ
  stock : ℤ
  imageUrl : Option String
  categoryId : Option Nat
deriving DecidableEq, Repr

/-- Row of the orders table (src/db/schema.js); totalAmount is numeric,
which in Postgres may hold the special value NaN: modelled as none.
The created_at column (defaultNow) is omitted as no claim concerns it. -/
structure Order where
  id : Nat
  customerName : String
  address : String
  totalAmount : Option ℚ
  status : String
deriving DecidableEq, Repr

/-- Row of the order_items table (src/db/schema.js). -/
structure OrderItem where
  id : Nat
  orderId : Nat
  productId : Nat
  quantity : ℤ
  priceAtTime : ℚ
deriving DecidableEq, Repr

/-- The database state: the five tables of src/db/schema.js plus the serial
id counters for the two tables the checkout inserts into. -/
structure Store where
  users : List User
  categories : List Category
  products : List Product
  orders : List Order
  orderItems : List OrderItem
  nextOrderId : Nat
  nextOrderItemId : Nat
deriving DecidableEq, Repr

/-- One element of the items array of a POST /api/orders body. The handler
reads only item.productId and item.quantity; clientPrice models any extra
price field a client may send in the JSON, which the code never accesses. -/
structure ReqItem where
  productId : Nat
  quantity : ℤ
  clientPrice : Option ℚ
deriving DecidableEq, Repr

/-- Outcome of the handler: the 200 body fields orderId and total on
success, or the 400 body message on failure. A total of none is the
JavaScript NaN, serialised as null in the JSON response. -/
inductive POResult where
  | success (orderId : Nat) (total : Option ℚ)
  | failure (message : String)
deriving DecidableEq, Repr

/-- JavaScript addition on numbers that may be NaN (none): NaN propagates. -/
def jsAdd : Option ℚ → Option ℚ → Option ℚ
  | some a, some b => some (a + b)
  | _, _ => none

/-- JavaScript multiplication on numbers that may be NaN (none): NaN
propagates. -/
def jsMul : Option ℚ → Option ℚ → Option ℚ
  | some a, some b => some (a * b)
  | _, _ => none

/-- tx.query.products.findFirst with where eq(products.id, pid). -/
def getProduct (s : Store) (pid : Nat) : Option Product :=
  s.products.find? (fun p => p.id == pid)

/-- tx.update(products).set stock v .where eq(products.id, pid): every row
whose id matches gets the new stock value, all other columns untouched. -/
def updateStock (s : Store) (pid : Nat) (v : ℤ) : Store :=
  { s with
    products := s.products.map (fun p => if p.id == pid then { p with stock := v } else p) }

/-- parseFloat(product.price.price) at src/index.js line 140: the numeric
column product.price arrives from the driver as a primitive value, which has
no price property, so the access yields undefined and parseFloat(undefined)
is NaN for every product. -/
def nestedPrice (_ : Product) : Option ℚ := none

/-- Message of the throw at src/index.js line 137, the template literal
interpolating product?.name: a missing product interpolates the JavaScript
undefined value as the string undefined. -/
def failMsg : Option Product → String
  | some p => "Stok " ++ p.name ++ " kurang!"
  | none => "Stok undefined kurang!"

/-- Message of the throw in the drizzle.config.js variant, interpolating
product?.name with a Produk fallback; the fallback also fires on an empty
name, that value being falsy in JavaScript. -/
def failMsgV2 : Option Product → String
  | some p => "Stok " ++ (if p.name = "" then "Produk" else p.name) ++ " tidak mencukupi!"
  | none => "Stok Produk tidak mencukupi!"

/-- Body of the per-item loop of POST /api/orders in src/index.js: fetch the
product, throw when it is missing or stock < quantity, accumulate the total
from product.price.price (NaN, see nestedPrice), insert the OrderItem
snapshotting quantity and product.price, and write stock - quantity back. -/
def processItem (oid : Nat) (s : Store) (total : Option ℚ) (item : ReqItem) :
    Except String (Store × Option ℚ) :=
  match getProduct s item.productId with
  | none => .error (failMsg none)
  | some p =>
    if p.stock < item.quantity then .error (failMsg (some p))
    else
      let total1 := jsAdd total (jsMul (nestedPrice p) (some (item.quantity : ℚ)))
      let s1 : Store := { s with
        orderItems := s.orderItems ++
          [⟨s.nextOrderItemId, oid, item.productId, item.quantity, p.price⟩],
        nextOrderItemId := s.nextOrderItemId + 1 }
      .ok (updateStock s1 item.productId (p.stock - item.quantity), total1)

/-- The for-of loop over items in src/index.js, threading the transaction
state and the running total; the first throw aborts the loop. -/
def processItems (oid : Nat) : Store → Option ℚ → List ReqItem → Except String (Store × Option ℚ)
  | s, total, [] => .ok (s, total)
  | s, total, item :: rest =>
    match processItem oid s total item with
    | .error m => .error m
    | .ok (s1, t1) => processItems oid s1 t1 rest

/-- Step 1 of the transaction, identical in both variants: insert the order
header row with totalAmount 0 and status pending; the generated serial id is
s.nextOrderId. -/
def insertOrderHeader (s : Store) (customerName address : String) : Store :=
  { s with
    orders := s.orders ++ [⟨s.nextOrderId, customerName, address, some 0, "pending"⟩],
    nextOrderId := s.nextOrderId + 1 }

/-- POST /api/orders of src/index.js: db.transaction inserts the order
header with totalAmount 0 and status pending, processes the items, then
writes the accumulated total into the order row; a thrown error aborts the
transaction, rolling back every write of this call, and is returned as the
400 failure body. -/
def placeOrder (s : Store) (customerName address : String) (items : List ReqItem) :
    Store × POResult :=
  match processItems s.nextOrderId (insertOrderHeader s customerName address) (some 0) items with
  | .error m => (s, .failure m)
  | .ok (s2, total) =>
    ({ s2 with
        orders := s2.orders.map
          (fun o => if o.id == s.nextOrderId then { o with totalAmount := total } else o) },
     .success s.nextOrderId total)

/-- Body of the per-item loop in the drizzle.config.js variant: identical to
processItem except that itemPrice is parseFloat(product.price) - the stored
price itself - and the failure message has the Produk fallback. -/
def processItemV2 (oid : Nat) (s : Store) (total : Option ℚ) (item : ReqItem) :
    Except String (Store × Option ℚ) :=
  match getProduct s item.productId with
  | none => .error (failMsgV2 none)
  | some p =>
    if p.stock < item.quantity then .error (failMsgV2 (some p))
    else
      let total1 := jsAdd total (jsMul (some p.price) (some (item.quantity : ℚ)))
      let s1 : Store := { s with
        orderItems := s.orderItems ++
          [⟨s.nextOrderItemId, oid, item.productId, item.quantity, p.price⟩],
        nextOrderItemId := s.nextOrderItemId + 1 }
      .ok (updateStock s1 item.productId (p.stock - item.quantity), total1)

/-- The item loop of the drizzle.config.js variant. -/
def processItemsV2 (oid : Nat) : Store → Option ℚ → List ReqItem → Except String (Store × Option ℚ)
  | s, total, [] => .ok (s, total)
  | s, total, item :: rest =>
    match processItemV2 oid s total item with
    | .error m => .error m
    | .ok (s1, t1) => processItemsV2 oid s1 t1 rest

/-- POST /api/orders of the drizzle.config.js variant. -/
def placeOrderV2 (s : Store) (customerName address : String) (items : List ReqItem) :
    Store × POResult :=
  match processItemsV2 s.nextOrderId (insertOrderHeader s customerName address) (some 0) items with
  | .error m => (s, .failure m)
  | .ok (s2, total) =>
    ({ s2 with
        orders := s2.orders.map
          (fun o => if o.id == s.nextOrderId then { o with totalAmount := total } else o) },
     .success s.nextOrderId total)

/-- A product with its stock cleared, used to state that checkout writes no
other column of the products table. -/
def stripStock (p : Product) : Product := { p with stock := 0 }

/-- The product of the spec scenario: p1 with stock 5 and price 10.00. -/
def p1 : Product := ⟨1, "p1", none, 10, 5, none, none⟩

/-- A store holding only p1, with fresh id counters. -/
def sampleStore : Store := ⟨[], [], [p1], [], [], 1, 1⟩

/-- A second concrete product for the price-authority evaluation. -/
def p2 : Product := ⟨2, "p2", none, 15/2, 4, none, none⟩

/-- A store holding only p2. -/
def sampleStore2 : Store := ⟨[], [], [p2], [], [], 1, 1⟩

/-- Helper: find? over the stock rewrite of updateStock commutes with the
rewrite, the rewrite preserving every id. -/
theorem find?_map_setStock (l : List Product) (pid : Nat) (v : ℤ) :
    (l.map (fun p => if p.id == pid then { p with stock := v } else p)).find?
        (fun p => p.id == pid)
      = (l.find? (fun p => p.id == pid)).map (fun p => { p with stock := v }) := by
  induction l with
  | nil => rfl
  | cons a l ih =>
    rw [List.map_cons]
    by_cases h : (a.id == pid) = true
    · rw [if_pos h,
        @List.find?_cons_of_pos Product (fun p => p.id == pid) { a with stock := v } _ h,
        @List.find?_cons_of_pos Product (fun p => p.id == pid) a l h]
      rfl
    · rw [if_neg h,
        @List.find?_cons_of_neg Product (fun p => p.id == pid) a _ h,
        @List.find?_cons_of_neg Product (fun p => p.id == pid) a l h, ih]

/-- Helper: reading back the product just written by updateStock yields the
previously fetched row with only its stock replaced. -/
theorem getProduct_updateStock_self (s : Store) (pid : Nat) (v : ℤ) :
    getProduct (updateStock s pid v) pid
      = (getProduct s pid).map (fun p => { p with stock := v }) := by
  simp only [getProduct, updateStock]
  exact find?_map_setStock s.products pid v

/-- Helper: the item loop throws on a missing product. -/
theorem processItems_cons_missing (oid : Nat) (s : Store) (total : Option ℚ)
    (item : ReqItem) (rest : List ReqItem) (h : getProduct s item.productId = none) :
    processItems oid s total (item :: rest) = .error (failMsg none) := by
  simp [processItems, processItem, h]

/-- Helper: the item loop throws on an understocked product. -/
theorem processItems_cons_short (oid : Nat) (s : Store) (total : Option ℚ)
    (item : ReqItem) (rest : List ReqItem) (p : Product)
    (hp : getProduct s item.productId = some p) (hq : p.stock < item.quantity) :
    processItems oid s total (item :: rest) = .error (failMsg (some p)) := by
  simp [processItems, processItem, hp, hq]

/-- Helper: the passing step of the item loop inserts the order item and
writes the decremented stock, then continues with the rest. -/
theorem processItems_cons_ok (oid : Nat) (s : Store) (total : Option ℚ)
    (item : ReqItem) (rest : List ReqItem) (p : Product)
    (hp : getProduct s item.productId = some p) (hq : ¬ p.stock < item.quantity) :
    processItems oid s total (item :: rest)
      = processItems oid
          (updateStock
            { s with
              orderItems := s.orderItems ++
                [⟨s.nextOrderItemId, oid, item.productId, item.quantity, p.price⟩],
              nextOrderItemId := s.nextOrderItemId + 1 }
            item.productId (p.stock - item.quantity))
          (jsAdd total (jsMul (nestedPrice p) (some (item.quantity : ℚ)))) rest := by
  simp [processItems, processItem, hp, hq]

/-- Helper: V2 item loop, missing product case. -/
theorem processItemsV2_cons_missing (oid : Nat) (s : Store) (total : Option ℚ)
    (item : ReqItem) (rest : List ReqItem) (h : getProduct s item.productId = none) :
    processItemsV2 oid s total (item :: rest) = .error (failMsgV2 none) := by
  simp [processItemsV2, processItemV2, h]

/-- Helper: V2 item loop, understocked case. -/
theorem processItemsV2_cons_short (oid : Nat) (s : Store) (total : Option ℚ)
    (item : ReqItem) (rest : List ReqItem) (p : Product)
    (hp : getProduct s item.productId = some p) (hq : p.stock < item.quantity) :
    processItemsV2 oid s total (item :: rest) = .error (failMsgV2 (some p)) := by
  simp [processItemsV2, processItemV2, hp, hq]

/-- Helper: the transaction maps a thrown error to a failure response with
the original store restored. -/
theorem placeOrder_of_error (s : Store) (cn ad : String) (items : List ReqItem) (m : String)
    (h : processItems s.nextOrderId (insertOrderHeader s cn ad) (some 0) items = .error m) :
    placeOrder s cn ad items = (s, POResult.failure m) := by
  unfold placeOrder
  rw [h]

/-- Helper: the transaction commits a completed item loop, writing the
accumulated total into the order row. -/
theorem placeOrder_of_ok (s : Store) (cn ad : String) (items : List ReqItem)
    (s2 : Store) (total : Option ℚ)
    (h : processItems s.nextOrderId (insertOrderHeader s cn ad) (some 0) items
      = .ok (s2, total)) :
    placeOrder s cn ad items
      = ({ s2 with
            orders := s2.orders.map
              (fun o => if o.id == s.nextOrderId then { o with totalAmount := total } else o) },
         POResult.success s.nextOrderId total) := by
  unfold placeOrder
  rw [h]

/-- Helper: V2 transaction, thrown error case. -/
theorem placeOrderV2_of_error (s : Store) (cn ad : String) (items : List ReqItem) (m : String)
    (h : processItemsV2 s.nextOrderId (insertOrderHeader s cn ad) (some 0) items = .error m) :
    placeOrderV2 s cn ad items = (s, POResult.failure m) := by
  unfold placeOrderV2
  rw [h]

/-- C1: whenever the checkout transaction of either variant ends in a
failure response, the store afterwards equals the store before the call: the
order header, the order items and the stock decrements of this call are all
rolled back. -/
theorem checkout_rollback_on_failure (s : Store) (cn ad : String) (items : List ReqItem)
    (m : String) :
    ((placeOrder s cn ad items).2 = POResult.failure m → (placeOrder s cn ad items).1 = s)
    ∧ ((placeOrderV2 s cn ad items).2 = POResult.failure m →
        (placeOrderV2 s cn ad items).1 = s) := by
  constructor
  · intro h
    unfold placeOrder at h ⊢
    cases hp : processItems s.nextOrderId (insertOrderHeader s cn ad) (some 0) items with
    | error m2 => rfl
    | ok r =>
      rw [hp] at h
      obtain ⟨s2, t⟩ := r
      simp at h
  · intro h
    unfold placeOrderV2 at h ⊢
    cases hp : processItemsV2 s.nextOrderId (insertOrderHeader s cn ad) (some 0) items with
    | error m2 => rfl
    | ok r =>
      rw [hp] at h
      obtain ⟨s2, t⟩ := r
      simp at h

/-- Witness for C1: a request for a nonexistent product id fails and leaves
the sample store untouched. -/
theorem checkout_rollback_on_failure_witness :
    (placeOrder sampleStore "c" "a" [⟨9, 1, none⟩]).2
        = POResult.failure "Stok undefined kurang!"
    ∧ (placeOrder sampleStore "c" "a" [⟨9, 1, none⟩]).1 = sampleStore :=
  ⟨by decide,
   (checkout_rollback_on_failure sampleStore "c" "a" [⟨9, 1, none⟩]
      "Stok undefined kurang!").1 (by decide)⟩

/-- C2 evaluation: on the spec scenario (p1 with stock 5, price 10.00,
request of quantity 3) the src/index.js handler succeeds and decrements the
stock to 2, and the order items sum to 30, but the returned and stored total
is NaN (none), not 30.00, because the total is accumulated from
product.price.price; the drizzle.config.js variant returns 30 as the spec
intends. -/
theorem placeOrder_scenario_nan_total :
    (placeOrder sampleStore "c" "a" [⟨1, 3, none⟩]).2 = POResult.success 1 none
    ∧ (getProduct (placeOrder sampleStore "c" "a" [⟨1, 3, none⟩]).1 1).map Product.stock
        = some 2
    ∧ ((placeOrder sampleStore "c" "a" [⟨1, 3, none⟩]).1.orderItems.map
        (fun oi => oi.priceAtTime * (oi.quantity : ℚ))).sum = 30
    ∧ (placeOrderV2 sampleStore "c" "a" [⟨1, 3, none⟩]).2 = POResult.success 1 (some 30) := by
  refine ⟨by decide, by decide, ?_, ?_⟩
  · norm_num [placeOrder, processItems, processItem, insertOrderHeader, getProduct,
      updateStock, jsAdd, jsMul, nestedPrice, sampleStore, p1, List.find?,
      List.sum_cons, List.sum_nil]
  · norm_num [placeOrderV2, processItemsV2, processItemV2, insertOrderHeader, getProduct,
      updateStock, jsAdd, jsMul, sampleStore, p1, List.find?]

/-- C3 evaluation: a client-supplied price field is ignored by both
variants (identical responses with and without it), but the src/index.js
total is NaN (none) rather than the stored unit price times quantity
(15/2 times 2 = 15), which the drizzle.config.js variant returns. -/
theorem placeOrder_price_authority_eval :
    (placeOrder sampleStore2 "c" "a" [⟨2, 2, some 999⟩]).2
        = (placeOrder sampleStore2 "c" "a" [⟨2, 2, none⟩]).2
    ∧ (placeOrder sampleStore2 "c" "a" [⟨2, 2, some 999⟩]).2 = POResult.success 1 none
    ∧ (placeOrderV2 sampleStore2 "c" "a" [⟨2, 2, some 999⟩]).2
        = (placeOrderV2 sampleStore2 "c" "a" [⟨2, 2, none⟩]).2
    ∧ (placeOrderV2 sampleStore2 "c" "a" [⟨2, 2, some 999⟩]).2
        = POResult.success 1 (some 15) := by
  refine ⟨by decide, by decide, ?_, ?_⟩
  · norm_num [placeOrderV2, processItemsV2, processItemV2, insertOrderHeader, getProduct,
      updateStock, jsAdd, jsMul, sampleStore2, p2, List.find?]
  · norm_num [placeOrderV2, processItemsV2, processItemV2, insertOrderHeader, getProduct,
      updateStock, jsAdd, jsMul, sampleStore2, p2, List.find?]

/-- C6 counterexample: a request with an empty items list is not rejected
with a validation error; it succeeds with total 0 and creates an order row. -/
theorem placeOrder_empty_items_succeeds :
    (placeOrder sampleStore "c" "a" []).2 = POResult.success 1 (some 0)
    ∧ (placeOrder sampleStore "c" "a" []).1.orders
        = [⟨1, "c", "a", some 0, "pending"⟩] := by
  decide

/-- Helper: the final totalAmount update is the identity on every order row
whose id differs from the target or whose totalAmount already equals the
written total. -/
theorem map_setTotal_eq_self (l : List Order) (oid : Nat) (t : Option ℚ)
    (h : ∀ o ∈ l, o.id ≠ oid ∨ o.totalAmount = t) :
    l.map (fun o => if o.id == oid then { o with totalAmount := t } else o) = l := by
  induction l with
  | nil => rfl
  | cons a l ih =>
    have ha := h a (List.mem_cons_self a l)
    have hl : ∀ o ∈ l, o.id ≠ oid ∨ o.totalAmount = t :=
      fun o ho => h o (List.mem_cons_of_mem a ho)
    simp only [List.map_cons, ih hl]
    rcases ha with ha | ha
    · rw [if_neg (by simp [ha])]
    · by_cases hid : (a.id == oid) = true
      · rw [if_pos hid, ← ha]
      · rw [if_neg hid]

/-- C6 amended: with an empty items list the handler performs no validation:
the call succeeds with total 0, creating exactly one pending order row with
totalAmount 0 and changing nothing else (stated for stores whose existing
order ids differ from the next serial id, as the serial primary key
guarantees). -/
theorem placeOrder_empty_items (s : Store) (cn ad : String)
    (h : ∀ o ∈ s.orders, o.id ≠ s.nextOrderId) :
    placeOrder s cn ad [] =
      ({ s with
          orders := s.orders ++ [⟨s.nextOrderId, cn, ad, some 0, "pending"⟩],
          nextOrderId := s.nextOrderId + 1 },
       POResult.success s.nextOrderId (some 0)) := by
  have hmap : ∀ o ∈ s.orders ++ [(⟨s.nextOrderId, cn, ad, some 0, "pending"⟩ : Order)],
      o.id ≠ s.nextOrderId ∨ o.totalAmount = some 0 := by
    intro o ho
    rcases List.mem_append.1 ho with ho | ho
    · exact Or.inl (h o ho)
    · simp only [List.mem_singleton] at ho
      subst ho
      exact Or.inr rfl
  simp only [placeOrder, processItems, insertOrderHeader]
  rw [map_setTotal_eq_self _ _ _ hmap]

/-- Witness for C6 amended at the sample store. -/
theorem placeOrder_empty_items_witness :
    placeOrder sampleStore "x" "y" [] =
      ({ sampleStore with
          orders := sampleStore.orders ++ [⟨1, "x", "y", some 0, "pending"⟩],
          nextOrderId := 2 },
       POResult.success 1 (some 0)) :=
  placeOrder_empty_items sampleStore "x" "y" (by decide)

/-- C7 counterexample: a request with quantity -2 for p1 is not rejected:
it succeeds, records an order item with quantity -2, and raises the stock
from 5 to 7 - a store mutation performed for a nonpositive quantity. -/
theorem placeOrder_negative_quantity_mutates :
    (placeOrder sampleStore "c" "a" [⟨1, -2, none⟩]).2 = POResult.success 1 none
    ∧ (getProduct (placeOrder sampleStore "c" "a" [⟨1, -2, none⟩]).1 1).map Product.stock
        = some 7
    ∧ (placeOrder sampleStore "c" "a" [⟨1, -2, none⟩]).1.orderItems.map OrderItem.quantity
        = [-2] := by
  decide

/-- Helper: reading the item product back after the order item insert and
the stock write yields the fetched row with only its stock replaced. -/
theorem getProduct_step (s : Store) (oi : OrderItem) (pid : Nat) (v : ℤ) (p : Product)
    (hp : getProduct s pid = some p) :
    getProduct
      (updateStock
        { s with
          orderItems := s.orderItems ++ [oi],
          nextOrderItemId := s.nextOrderItemId + 1 } pid v) pid
      = some { p with stock := v } := by
  rw [getProduct_updateStock_self]
  have h2 : getProduct
      { s with
        orderItems := s.orderItems ++ [oi],
        nextOrderItemId := s.nextOrderItemId + 1 } pid = some p := hp
  rw [h2]
  rfl

/-- C8: with the same product id in two items of one request, the second
item is checked against the stock already decremented by the first: the
per-item findFirst inside the transaction re-reads the current row rather
than using a value cached at request start, so the request succeeds exactly
when q1 fits the initial stock and q2 fits the remainder, and on success
both decrements are applied. -/
theorem placeOrder_duplicate_item_refetch (s : Store) (cn ad : String) (pid : Nat)
    (q1 q2 : ℤ) (cp1 cp2 : Option ℚ) (p : Product)
    (hp : getProduct s pid = some p) :
    ((∃ t, (placeOrder s cn ad [⟨pid, q1, cp1⟩, ⟨pid, q2, cp2⟩]).2
        = POResult.success s.nextOrderId t)
      ↔ (q1 ≤ p.stock ∧ q2 ≤ p.stock - q1))
    ∧ (q1 ≤ p.stock → q2 ≤ p.stock - q1 →
        getProduct (placeOrder s cn ad [⟨pid, q1, cp1⟩, ⟨pid, q2, cp2⟩]).1 pid
          = some { p with stock := p.stock - q1 - q2 }) := by
  have hp1 : getProduct (insertOrderHeader s cn ad) pid = some p := hp
  by_cases h1 : p.stock < q1
  · have he := placeOrder_of_error s cn ad [⟨pid, q1, cp1⟩, ⟨pid, q2, cp2⟩] _
      (processItems_cons_short _ _ _ _ _ _ hp1 h1)
    refine ⟨iff_of_false ?_ ?_, ?_⟩
    · rintro ⟨t, ht⟩
      rw [he] at ht
      simp at ht
    · rintro ⟨hq1, -⟩
      exact absurd h1 (not_lt.2 hq1)
    · intro hq1 _
      exact absurd h1 (not_lt.2 hq1)
  · have hstep1 := processItems_cons_ok s.nextOrderId (insertOrderHeader s cn ad) (some 0)
      ⟨pid, q1, cp1⟩ [⟨pid, q2, cp2⟩] p hp1 h1
    have hp2 := getProduct_step (insertOrderHeader s cn ad)
      ⟨(insertOrderHeader s cn ad).nextOrderItemId, s.nextOrderId, pid, q1, p.price⟩
      pid (p.stock - q1) p hp1
    by_cases h2 : p.stock - q1 < q2
    · have he2 := processItems_cons_short s.nextOrderId _
        (jsAdd (some 0) (jsMul (nestedPrice p) (some (q1 : ℚ)))) ⟨pid, q2, cp2⟩ []
        { p with stock := p.stock - q1 } hp2 h2
      have he := placeOrder_of_error s cn ad [⟨pid, q1, cp1⟩, ⟨pid, q2, cp2⟩] _
        (hstep1.trans he2)
      refine ⟨iff_of_false ?_ ?_, ?_⟩
      · rintro ⟨t, ht⟩
        rw [he] at ht
        simp at ht
      · rintro ⟨-, hq2⟩
        exact absurd h2 (not_lt.2 hq2)
      · intro _ hq2
        exact absurd h2 (not_lt.2 hq2)
    · have hstep2 := processItems_cons_ok s.nextOrderId _
        (jsAdd (some 0) (jsMul (nestedPrice p) (some (q1 : ℚ)))) ⟨pid, q2, cp2⟩ []
        { p with stock := p.stock - q1 } hp2 h2
      have hres := placeOrder_of_ok s cn ad [⟨pid, q1, cp1⟩, ⟨pid, q2, cp2⟩] _ _
        (hstep1.trans hstep2)
      refine ⟨iff_of_true ⟨_, by rw [hres]⟩ ⟨not_lt.1 h1, not_lt.1 h2⟩, ?_⟩
      intro _ _
      rw [hres]
      exact getProduct_step _ _ _ _ { p with stock := p.stock - q1 } hp2

/-- Witness for C8 on the sample store: quantities 3 then 2 against stock 5
succeed and leave stock 0. -/
theorem placeOrder_duplicate_item_refetch_witness :
    ((∃ t, (placeOrder sampleStore "c" "a" [⟨1, 3, none⟩, ⟨1, 2, none⟩]).2
        = POResult.success 1 t)
      ↔ ((3 : ℤ) ≤ 5 ∧ (2 : ℤ) ≤ 5 - 3))
    ∧ getProduct (placeOrder sampleStore "c" "a" [⟨1, 3, none⟩, ⟨1, 2, none⟩]).1 1
        = some { p1 with stock := 0 } :=
  ⟨(placeOrder_duplicate_item_refetch sampleStore "c" "a" 1 3 2 none none p1 (by decide)).1,
   (placeOrder_duplicate_item_refetch sampleStore "c" "a" 1 3 2 none none p1 (by decide)).2
     (by decide) (by decide)⟩

/-- C5: a single-item checkout fails exactly when the product is missing or
its current stock is below the requested quantity; the failure message names
the product when it exists, and otherwise is a fixed generic string: the
undefined interpolation in src/index.js, the Produk fallback in the
drizzle.config.js variant. -/
theorem placeOrder_insufficient_stock_iff (s : Store) (cn ad : String) (it : ReqItem) :
    ((∃ m, (placeOrder s cn ad [it]).2 = POResult.failure m)
      ↔ (getProduct s it.productId = none
          ∨ ∃ p, getProduct s it.productId = some p ∧ p.stock < it.quantity))
    ∧ (getProduct s it.productId = none →
        (placeOrder s cn ad [it]).2 = POResult.failure "Stok undefined kurang!"
        ∧ (placeOrderV2 s cn ad [it]).2 = POResult.failure "Stok Produk tidak mencukupi!")
    ∧ (∀ p, getProduct s it.productId = some p → p.stock < it.quantity →
        (placeOrder s cn ad [it]).2 = POResult.failure ("Stok " ++ p.name ++ " kurang!")
        ∧ (placeOrderV2 s cn ad [it]).2
          = POResult.failure ("Stok " ++ (if p.name = "" then "Produk" else p.name)
              ++ " tidak mencukupi!")) := by
  cases hg : getProduct s it.productId with
  | none =>
    have hg1 : getProduct (insertOrderHeader s cn ad) it.productId = none := hg
    have he := placeOrder_of_error s cn ad [it] _ (processItems_cons_missing _ _ _ _ _ hg1)
    have heV := placeOrderV2_of_error s cn ad [it] _ (processItemsV2_cons_missing _ _ _ _ _ hg1)
    refine ⟨iff_of_true ⟨_, by rw [he]⟩ (Or.inl rfl), ?_, ?_⟩
    · intro _
      exact ⟨by rw [he]; rfl, by rw [heV]; rfl⟩
    · intro p hp
      simp at hp
  | some p =>
    have hg1 : getProduct (insertOrderHeader s cn ad) it.productId = some p := hg
    by_cases hlt : p.stock < it.quantity
    · have he := placeOrder_of_error s cn ad [it] _
        (processItems_cons_short _ _ _ _ _ _ hg1 hlt)
      have heV := placeOrderV2_of_error s cn ad [it] _
        (processItemsV2_cons_short _ _ _ _ _ _ hg1 hlt)
      refine ⟨iff_of_true ⟨_, by rw [he]⟩ (Or.inr ⟨p, rfl, hlt⟩), ?_, ?_⟩
      · intro hnone
        simp at hnone
      · intro p2 hp2 hlt2
        obtain rfl := Option.some.inj hp2
        exact ⟨by rw [he]; rfl, by rw [heV]; rfl⟩
    · have hres := placeOrder_of_ok s cn ad [it] _ _
        (processItems_cons_ok s.nextOrderId (insertOrderHeader s cn ad) (some 0) it [] p
          hg1 hlt)
      refine ⟨iff_of_false ?_ ?_, ?_, ?_⟩
      · rintro ⟨m, hm⟩
        rw [hres] at hm
        simp at hm
      · rintro (hnone | ⟨p2, hp2, hlt2⟩)
        · simp at hnone
        · obtain rfl := Option.some.inj hp2
          exact hlt hlt2
      · intro hnone
        simp at hnone
      · intro p2 hp2 hlt2
        obtain rfl := Option.some.inj hp2
        exact absurd hlt2 hlt

/-- Witness for C5: a nonexistent product id fails with the fixed generic
messages of the two variants. -/
theorem placeOrder_insufficient_stock_iff_witness :
    (placeOrder sampleStore "c" "a" [⟨7, 1, none⟩]).2
        = POResult.failure "Stok undefined kurang!"
    ∧ (placeOrderV2 sampleStore "c" "a" [⟨7, 1, none⟩]).2
        = POResult.failure "Stok Produk tidak mencukupi!" :=
  (placeOrder_insufficient_stock_iff sampleStore "c" "a" ⟨7, 1, none⟩).2.1 (by decide)

/-- C7 amended: a nonpositive quantity for an existing product with
nonnegative stock passes the stock check, the call succeeds, an order item
with that quantity is recorded, and the stock is set to stock - quantity,
which is no decrease at all: stock grows for negative quantities. -/
theorem placeOrder_nonpositive_quantity (s : Store) (cn ad : String) (pid : Nat)
    (q : ℤ) (cp : Option ℚ) (p : Product)
    (hp : getProduct s pid = some p) (hq : q ≤ 0) (hs : 0 ≤ p.stock) :
    (∃ t, (placeOrder s cn ad [⟨pid, q, cp⟩]).2 = POResult.success s.nextOrderId t)
    ∧ getProduct (placeOrder s cn ad [⟨pid, q, cp⟩]).1 pid
        = some { p with stock := p.stock - q }
    ∧ p.stock ≤ p.stock - q
    ∧ (placeOrder s cn ad [⟨pid, q, cp⟩]).1.orderItems
        = s.orderItems ++ [⟨s.nextOrderItemId, s.nextOrderId, pid, q, p.price⟩] := by
  have hp1 : getProduct (insertOrderHeader s cn ad) pid = some p := hp
  have hlt : ¬ p.stock < q := not_lt.2 (le_trans hq hs)
  have hres := placeOrder_of_ok s cn ad [⟨pid, q, cp⟩] _ _
    (processItems_cons_ok s.nextOrderId (insertOrderHeader s cn ad) (some 0)
      ⟨pid, q, cp⟩ [] p hp1 hlt)
  refine ⟨⟨_, by rw [hres]⟩, ?_, by omega, ?_⟩
  · rw [hres]
    exact getProduct_step _ _ _ _ p hp1
  · rw [hres]
    rfl

/-- Witness for C7 amended: quantity -2 against stock 5 succeeds and sets
stock to 7. -/
theorem placeOrder_nonpositive_quantity_witness :
    (∃ t, (placeOrder sampleStore "c" "a" [⟨1, -2, none⟩]).2 = POResult.success 1 t)
    ∧ getProduct (placeOrder sampleStore "c" "a" [⟨1, -2, none⟩]).1 1
        = some { p1 with stock := 7 }
    ∧ p1.stock ≤ p1.stock - (-2)
    ∧ (placeOrder sampleStore "c" "a" [⟨1, -2, none⟩]).1.orderItems
        = sampleStore.orderItems ++ [⟨1, 1, 1, -2, 10⟩] :=
  placeOrder_nonpositive_quantity sampleStore "c" "a" 1 (-2) none p1
    (by decide) (by decide) (by decide)

/-- Helper: the item loop keeps every stock nonnegative, because the write
of stock - quantity happens only under the guard quantity ≤ stock. -/
theorem processItems_stock_nonneg (oid : Nat) (items : List ReqItem) :
    ∀ s total s2 total2, processItems oid s total items = .ok (s2, total2) →
      (∀ p ∈ s.products, 0 ≤ p.stock) → ∀ p ∈ s2.products, 0 ≤ p.stock := by
  induction items with
  | nil =>
    intro s total s2 total2 h hs
    simp only [processItems, Except.ok.injEq, Prod.mk.injEq] at h
    obtain ⟨rfl, rfl⟩ := h
    exact hs
  | cons item rest ih =>
    intro s total s2 total2 h hs
    cases hg : getProduct s item.productId with
    | none =>
      rw [processItems_cons_missing _ _ _ _ _ hg] at h
      exact absurd h (by simp)
    | some p =>
      by_cases hlt : p.stock < item.quantity
      · rw [processItems_cons_short _ _ _ _ _ _ hg hlt] at h
        exact absurd h (by simp)
      · rw [processItems_cons_ok _ _ _ _ _ _ hg hlt] at h
        refine ih _ _ _ _ h ?_
        intro p2 hp2
        simp only [updateStock] at hp2
        obtain ⟨p0, hp0, rfl⟩ := List.mem_map.1 hp2
        by_cases hid : (p0.id == item.productId) = true
        · rw [if_pos hid]
          show 0 ≤ p.stock - item.quantity
          omega
        · rw [if_neg hid]
          exact hs p0 hp0

/-- C9: starting from a store in which every stock is nonnegative, any
checkout call, successful or failed, leaves every stock nonnegative: the
per-item decrement is guarded by the preceding stock check. -/
theorem placeOrder_stock_nonneg (s : Store) (cn ad : String) (items : List ReqItem)
    (hs : ∀ p ∈ s.products, 0 ≤ p.stock) :
    ∀ p ∈ (placeOrder s cn ad items).1.products, 0 ≤ p.stock := by
  cases hres : processItems s.nextOrderId (insertOrderHeader s cn ad) (some 0) items with
  | error m =>
    rw [placeOrder_of_error s cn ad items m hres]
    exact hs
  | ok r =>
    obtain ⟨s2, t⟩ := r
    rw [placeOrder_of_ok s cn ad items s2 t hres]
    exact processItems_stock_nonneg s.nextOrderId items (insertOrderHeader s cn ad) (some 0)
      s2 t hres hs

/-- Witness for C9: after the scenario checkout the decremented row still
has nonnegative stock. -/
theorem placeOrder_stock_nonneg_witness :
    0 ≤ ({ p1 with stock := 2 } : Product).stock :=
  placeOrder_stock_nonneg sampleStore "c" "a" [⟨1, 3, none⟩] (by decide)
    { p1 with stock := 2 } (by decide)

/-- Helper: clearing stock after the stock rewrite of updateStock gives the
same rows as clearing stock before it: no other column is written. -/
theorem map_stripStock_setStock (l : List Product) (pid : Nat) (v : ℤ) :
    (l.map (fun p => if p.id == pid then { p with stock := v } else p)).map stripStock
      = l.map stripStock := by
  induction l with
  | nil => rfl
  | cons a l ih =>
    simp only [List.map_cons, ih]
    by_cases hid : (a.id == pid) = true
    · rw [if_pos hid]
      rfl
    · rw [if_neg hid]

/-- Helper: the item loop changes no product column other than stock. -/
theorem processItems_stripStock (oid : Nat) (items : List ReqItem) :
    ∀ s total s2 total2, processItems oid s total items = .ok (s2, total2) →
      s2.products.map stripStock = s.products.map stripStock := by
  induction items with
  | nil =>
    intro s total s2 total2 h
    simp only [processItems, Except.ok.injEq, Prod.mk.injEq] at h
    obtain ⟨rfl, rfl⟩ := h
    rfl
  | cons item rest ih =>
    intro s total s2 total2 h
    cases hg : getProduct s item.productId with
    | none =>
      rw [processItems_cons_missing _ _ _ _ _ hg] at h
      exact absurd h (by simp)
    | some p =>
      by_cases hlt : p.stock < item.quantity
      · rw [processItems_cons_short _ _ _ _ _ _ hg hlt] at h
        exact absurd h (by simp)
      · rw [processItems_cons_ok _ _ _ _ _ _ hg hlt] at h
        rw [ih _ _ _ _ h]
        exact map_stripStock_setStock s.products item.productId (p.stock - item.quantity)

/-- Helper: the item loop neither reads nor writes the users and categories
tables: it commutes with replacing them. -/
theorem processItems_users_categories (oid : Nat) (items : List ReqItem) :
    ∀ s total u c,
      processItems oid { s with users := u, categories := c } total items
        = (processItems oid s total items).map
            (fun r => ({ r.1 with users := u, categories := c }, r.2)) := by
  induction items with
  | nil =>
    intro s total u c
    rfl
  | cons item rest ih =>
    intro s total u c
    cases hg : getProduct s item.productId with
    | none =>
      have hg2 : getProduct { s with users := u, categories := c } item.productId = none := hg
      rw [processItems_cons_missing _ _ _ _ _ hg2, processItems_cons_missing _ _ _ _ _ hg]
      rfl
    | some p =>
      have hg2 : getProduct { s with users := u, categories := c } item.productId
          = some p := hg
      by_cases hlt : p.stock < item.quantity
      · rw [processItems_cons_short _ _ _ _ _ _ hg2 hlt,
          processItems_cons_short _ _ _ _ _ _ hg hlt]
        rfl
      · rw [processItems_cons_ok _ _ _ _ _ _ hg2 hlt,
          processItems_cons_ok _ _ _ _ _ _ hg hlt]
        exact ih
          (updateStock
            { s with
              orderItems := s.orderItems ++
                [⟨s.nextOrderItemId, oid, item.productId, item.quantity, p.price⟩],
              nextOrderItemId := s.nextOrderItemId + 1 }
            item.productId (p.stock - item.quantity))
          (jsAdd total (jsMul (nestedPrice p) (some (item.quantity : ℚ)))) u c

/-- C10: checkout writes only the stock column of the products table, and
the users and categories tables are neither read nor written: replacing them
changes neither the response nor them, and the product rows after any call
agree with the rows before it on every column except stock. -/
theorem placeOrder_frame (s : Store) (u : List User) (c : List Category)
    (cn ad : String) (items : List ReqItem) :
    (placeOrder { s with users := u, categories := c } cn ad items).1.users = u
    ∧ (placeOrder { s with users := u, categories := c } cn ad items).1.categories = c
    ∧ (placeOrder { s with users := u, categories := c } cn ad items).2
        = (placeOrder s cn ad items).2
    ∧ (placeOrder s cn ad items).1.products.map stripStock
        = s.products.map stripStock := by
  have hkey := processItems_users_categories s.nextOrderId items
    (insertOrderHeader s cn ad) (some 0) u c
  cases hres : processItems s.nextOrderId (insertOrderHeader s cn ad) (some 0) items with
  | error m =>
    have hres2 : processItems s.nextOrderId
        { insertOrderHeader s cn ad with users := u, categories := c } (some 0) items
        = .error m := by
      rw [hkey, hres]
      rfl
    rw [placeOrder_of_error { s with users := u, categories := c } cn ad items m hres2,
      placeOrder_of_error s cn ad items m hres]
    exact ⟨rfl, rfl, rfl, rfl⟩
  | ok r =>
    obtain ⟨s2, t⟩ := r
    have hres2 : processItems s.nextOrderId
        { insertOrderHeader s cn ad with users := u, categories := c } (some 0) items
        = .ok ({ s2 with users := u, categories := c }, t) := by
      rw [hkey, hres]
      rfl
    rw [placeOrder_of_ok { s with users := u, categories := c } cn ad items
        { s2 with users := u, categories := c } t hres2,
      placeOrder_of_ok s cn ad items s2 t hres]
    exact ⟨rfl, rfl, rfl,
      processItems_stripStock s.nextOrderId items (insertOrderHeader s cn ad) (some 0)
        s2 t hres⟩

end TokoWarga
